import Mathlib

/-!
Shallow embedding of the GPU core of the rustation PlayStation emulator
(`src/gpu/mod.rs`), together with theorems settling the specification
claims about it.

Conventions of the embedding:
* Rust machine integers (`u8`, `u16`, `u32`, `u64`, `Cycles = u64`) are
  modelled as `Nat`; wrapping casts are explicit `%`/`&&&` operations at
  the places the source performs a narrowing cast.  The `u64` arithmetic
  of `sync` and `predict_next_sync` is embedded with explicit `% 2^64`
  reduction, and each `u64` subtraction `a - b` as the wrapping
  `(a + 2^64 - b) % 2^64` (release semantics; a debug build would panic
  exactly where the wrap is not the exact value).  Truncating `Nat`
  subtraction remains only where the source value cannot underflow
  (`gp0_words_remaining - 1`, which the opcode table keeps at least 1
  when it is decremented from a decode).
* `i16` values (the drawing offset) are modelled as `Int`, with the
  `u32 -> i16` and `i16 -> u32` casts made explicit.
* Code that panics (unknown opcodes, command-buffer overflow or
  out-of-range index, reserved texture depth, ...) returns `none`.
* The external collaborators are made observable: the `Renderer` is a
  list of calls accumulated in the state (the source owns the renderer
  as a field of `Gpu`), the `TimeKeeper` supplies the elapsed CPU cycle
  count `deltaCpu` as an argument to `sync` and receives the next sync
  deadline in the result, and the `InterruptState` assertion is the
  `vblankAssert` flag of the result.
* The GPU/CPU clock ratio: the source computes it in
  `gpu_to_cpu_clock_ratio` from `FracCycles::from_f32` and
  `cpu::CPU_FREQ_HZ`, both of which live in modules that are not part of
  the sources (`timekeeper.rs`, `cpu/mod.rs`).  Modelled from the spec:
  the ratio is a Q16.16 fixed-point value (`ratio_fp`), passed to the
  timing functions as an explicit parameter `ratio : Nat`.
-/

namespace Rustation

/-- Texture page colour depth (source enum `TextureDepth`). -/
inductive TextureDepth
  | t4bit
  | t8bit
  | t15bit
deriving DecidableEq

/-- Discriminant values of `TextureDepth` (`T4Bit = 0`, `T8Bit = 1`, `T15Bit = 2`). -/
def TextureDepth.toNat : TextureDepth → Nat
  | .t4bit => 0
  | .t8bit => 1
  | .t15bit => 2

/-- Interlaced video field (source enum `Field`: `Top = 1`, `Bottom = 0`). -/
inductive VideoField
  | top
  | bottom
deriving DecidableEq

/-- Discriminant values of the field enum (`Top = 1`, `Bottom = 0`). -/
def VideoField.toNat : VideoField → Nat
  | .top => 1
  | .bottom => 0

/-- Vertical resolution (source enum `VerticalRes`: `Y240Lines = 0`, `Y480Lines = 1`). -/
inductive VerticalRes
  | y240lines
  | y480lines
deriving DecidableEq

/-- Discriminant values of `VerticalRes`. -/
def VerticalRes.toNat : VerticalRes → Nat
  | .y240lines => 0
  | .y480lines => 1

/-- Video mode (source enum `VMode`: `Ntsc = 0`, `Pal = 1`). -/
inductive VMode
  | ntsc
  | pal
deriving DecidableEq

/-- Discriminant values of `VMode`. -/
def VMode.toNat : VMode → Nat
  | .ntsc => 0
  | .pal => 1

/-- Display area colour depth (source enum `DisplayDepth`: `D15Bits = 0`, `D24Bits = 1`). -/
inductive DisplayDepth
  | d15bits
  | d24bits
deriving DecidableEq

/-- Discriminant values of `DisplayDepth`. -/
def DisplayDepth.toNat : DisplayDepth → Nat
  | .d15bits => 0
  | .d24bits => 1

/-- DMA request direction (source enum `DmaDirection`). -/
inductive DmaDirection
  | off
  | fifo
  | cpuToGp0
  | vramToCpu
deriving DecidableEq

/-- Discriminant values of `DmaDirection` (`Off = 0`, `Fifo = 1`, `CpuToGp0 = 2`, `VRamToCpu = 3`). -/
def DmaDirection.toNat : DmaDirection → Nat
  | .off => 0
  | .fifo => 1
  | .cpuToGp0 => 2
  | .vramToCpu => 3

/-- Possible states of the GP0 command register (source enum `Gp0Mode`). -/
inductive Gp0Mode
  | command
  | imageLoad
deriving DecidableEq

/-- Hardware type selecting the GPU clock frequency (source enum `HardwareType`). -/
inductive HardwareType
  | ntsc
  | pal
deriving DecidableEq

/-- Identifier of a GP0 command handler.  The source stores a function
pointer `gp0_command_method: fn(&mut Gpu)`; the embedding stores this
discriminator, one constructor per distinct handler function. -/
inductive Gp0Method
  | nop
  | clearCache
  | fillRect
  | triangleMonoOpaque
  | quadMonoOpaque
  | quadTextureBlendOpaque
  | quadTextureRawOpaque
  | triangleShadedOpaque
  | quadShadedOpaque
  | rectOpaque
  | rectTextureBlendOpaque
  | rectTextureRawOpaque
  | imageLoad
  | imageStore
  | drawMode
  | textureWindow
  | drawingAreaTopLeft
  | drawingAreaBottomRight
  | drawingOffset
  | maskBitSetting
deriving DecidableEq

/-- A vertex position handed to the renderer (signed coordinates). -/
structure Position where
  x : Int
  y : Int
deriving DecidableEq

/-- An RGB colour handed to the renderer (byte components). -/
structure Color where
  r : Nat
  g : Nat
  b : Nat
deriving DecidableEq

/-- Modelled from the spec: `Position::from_gp0` lives in the renderer
module `gpu/opengl.rs`, which is not part of the sources.  Spec section
4.5: the x component is the low 16 bits of the word and the y component
the high 16 bits, each sign-extended from 11 bits. -/
def signExtend11 (v : Nat) : Int :=
  if v % 2048 < 1024 then ((v % 2048 : Nat) : Int)
  else ((v % 2048 : Nat) : Int) - 2048

/-- Modelled from the spec: decoding of a GP0 position word (see
`signExtend11`; the implementing file `gpu/opengl.rs` is missing from
the sources). -/
def Position.from_gp0 (word : Nat) : Position :=
  ⟨signExtend11 (word &&& 0xffff), signExtend11 (word >>> 16)⟩

/-- Modelled from the spec: decoding of a GP0 colour word
(`R = word[0..7]`, `G = word[8..15]`, `B = word[16..23]`); the
implementing file `gpu/opengl.rs` is missing from the sources. -/
def Color.from_gp0 (word : Nat) : Color :=
  ⟨word &&& 0xff, (word >>> 8) &&& 0xff, (word >>> 16) &&& 0xff⟩

/-- One call received by the external renderer backend. -/
inductive RendererCall
  | pushTriangle (positions : List Position) (colors : List Color)
  | pushQuad (positions : List Position) (colors : List Color)
  | setDrawOffset (x y : Int)
  | display
deriving DecidableEq

/-- Buffer holding multi-word fixed-length GP0 command parameters
(source struct `CommandBuffer`: a 12-word backing array plus a length;
only the first `len` slots are ever observable, so the embedding keeps
the queued words as a list). -/
structure CommandBuffer where
  words : List Nat
deriving DecidableEq

/-- `CommandBuffer::new`. -/
def CommandBuffer.new : CommandBuffer := ⟨[]⟩

/-- `CommandBuffer::clear` (resets the length to 0). -/
def CommandBuffer.clear (_cb : CommandBuffer) : CommandBuffer := ⟨[]⟩

/-- `CommandBuffer::push_word`; writing past the 12-word capacity is a
panic in the source (array index out of bounds). -/
def CommandBuffer.push_word (cb : CommandBuffer) (word : Nat) : Option CommandBuffer :=
  if cb.words.length < 12 then some ⟨cb.words ++ [word]⟩ else none

/-- `CommandBuffer`'s `Index` impl: indexing at or above the current
length panics. -/
def CommandBuffer.get (cb : CommandBuffer) (i : Nat) : Option Nat :=
  cb.words.get? i

/-- `HorizontalRes::from_fields`: packs the 2-bit field `hr1` and the
1-bit field `hr2` into the 3-bit horizontal resolution code. -/
def HorizontalRes.from_fields (hr1 hr2 : Nat) : Nat :=
  (hr2 &&& 1) ||| ((hr1 &&& 3) <<< 1)

/-- `HorizontalRes::into_status`: bits [18:16] of the status register. -/
def HorizontalRes.into_status (hr : Nat) : Nat :=
  hr <<< 16

/-- The GPU state (source struct `Gpu`).  The `renderer` field of the
source (the owned drawing backend) is modelled as the list of calls it
has received, in order. -/
structure Gpu where
  renderer : List RendererCall
  page_base_x : Nat
  page_base_y : Nat
  rectangle_texture_x_flip : Bool
  rectangle_texture_y_flip : Bool
  semi_transparency : Nat
  texture_depth : TextureDepth
  texture_window_x_mask : Nat
  texture_window_y_mask : Nat
  texture_window_x_offset : Nat
  texture_window_y_offset : Nat
  dithering : Bool
  draw_to_display : Bool
  force_set_mask_bit : Bool
  preserve_masked_pixels : Bool
  drawing_area_left : Nat
  drawing_area_top : Nat
  drawing_area_right : Nat
  drawing_area_bottom : Nat
  drawing_offset : Int × Int
  field : VideoField
  texture_disable : Bool
  hres : Nat
  vres : VerticalRes
  vmode : VMode
  display_depth : DisplayDepth
  interlaced : Bool
  display_disabled : Bool
  display_vram_x_start : Nat
  display_vram_y_start : Nat
  display_horiz_start : Nat
  display_horiz_end : Nat
  display_line_start : Nat
  display_line_end : Nat
  dma_direction : DmaDirection
  gp0_command : CommandBuffer
  gp0_words_remaining : Nat
  gp0_command_method : Gp0Method
  gp0_mode : Gp0Mode
  gp0_interrupt : Bool
  vblank_interrupt : Bool
  gpu_clock_phase : Nat
  display_line : Nat
  display_line_tick : Nat
  hardware : HardwareType
  read_word : Nat
deriving DecidableEq

/-- `Gpu::new`. -/
def Gpu.new (hardware : HardwareType) : Gpu where
  renderer := []
  page_base_x := 0
  page_base_y := 0
  rectangle_texture_x_flip := false
  rectangle_texture_y_flip := false
  semi_transparency := 0
  texture_depth := TextureDepth.t4bit
  texture_window_x_mask := 0
  texture_window_y_mask := 0
  texture_window_x_offset := 0
  texture_window_y_offset := 0
  dithering := false
  draw_to_display := false
  force_set_mask_bit := false
  preserve_masked_pixels := false
  drawing_area_left := 0
  drawing_area_top := 0
  drawing_area_right := 0
  drawing_area_bottom := 0
  drawing_offset := (0, 0)
  field := VideoField.top
  texture_disable := false
  hres := HorizontalRes.from_fields 0 0
  vres := VerticalRes.y240lines
  vmode := VMode.ntsc
  display_depth := DisplayDepth.d15bits
  interlaced := false
  display_disabled := true
  display_vram_x_start := 0
  display_vram_y_start := 0
  display_horiz_start := 0x200
  display_horiz_end := 0xc00
  display_line_start := 0x10
  display_line_end := 0x100
  dma_direction := DmaDirection.off
  gp0_command := CommandBuffer.new
  gp0_words_remaining := 0
  gp0_command_method := Gp0Method.nop
  gp0_mode := Gp0Mode.command
  gp0_interrupt := false
  vblank_interrupt := false
  gpu_clock_phase := 0
  display_line := 0
  display_line_tick := 0
  hardware := hardware
  read_word := 0

/-- `Gpu::vmode_timings`: GPU clock ticks per line and lines per frame
for the configured video mode. -/
def Gpu.vmode_timings (g : Gpu) : Nat × Nat :=
  match g.vmode with
  | VMode.ntsc => (3412, 263)
  | VMode.pal => (3404, 314)

/-- `Gpu::in_vblank`. -/
def Gpu.in_vblank (g : Gpu) : Bool :=
  decide (g.display_line < g.display_line_start) ||
  decide (g.display_line_end ≤ g.display_line)

/-- `Gpu::displayed_vram_line`: index of the currently displayed VRAM
line, truncated to 9 bits. -/
def Gpu.displayed_vram_line (g : Gpu) : Nat :=
  let offset :=
    if g.interlaced then g.display_line * 2 + g.field.toNat
    else g.display_line
  (g.display_vram_y_start + offset) &&& 0x1ff

/-- The three-branch GPU-tick formula of the spec (section 4.7), as
plain arithmetic: ticks to the end of the current line, plus — in the
trailing vertical blanking — `(lines_per_frame − line)` whole lines to
the frame end and `(display_line_start − 1)` lines to the end of the
next frame's leading blanking; in the leading blanking
`(display_line_start − 1 − line)` lines; in active video
`(display_line_end − 1 − line)` lines.  This is the specification-side
value the faithful `Gpu.predict_next_sync` embedding below is compared
against (the source computes the same three branches in wrapping `u64`
arithmetic). -/
def Gpu.specTicksToNextEvent (g : Gpu) : Nat :=
  let ticks_per_line := g.vmode_timings.1
  let lines_per_frame := g.vmode_timings.2
  let cur_line := g.display_line
  let delta := ticks_per_line - g.display_line_tick
  if g.display_line_end ≤ cur_line then
    delta + (lines_per_frame - cur_line) * ticks_per_line
          + (g.display_line_start - 1) * ticks_per_line
  else if cur_line < g.display_line_start then
    delta + (g.display_line_start - 1 - cur_line) * ticks_per_line
  else
    delta + (g.display_line_end - 1 - cur_line) * ticks_per_line

/-- `Gpu::predict_next_sync`: compute the GPU ticks to the next event
boundary, convert them to CPU cycles rounding up, and hand the result to
the timekeeper (the returned value is the registered
`set_next_sync_delta` argument).  All arithmetic in the source is on
`Cycles = u64`: every subtraction `a - b` is embedded as the wrapping
`(a + 2^64 - b) % 2^64`, and each assignment is reduced `% 2^64` (since
`%` commutes with `+` and `*`, this equals the per-operation wrap of
release-mode Rust; a debug build would panic at exactly the points where
the wrap is not the exact value).  `ratio` is the Q16.16 GPU/CPU clock
ratio (see the module docstring). -/
def Gpu.predict_next_sync (g : Gpu) (ratio : Nat) : Nat :=
  let ticks_per_line := g.vmode_timings.1
  let lines_per_frame := g.vmode_timings.2
  let cur_line := g.display_line
  let delta := (ticks_per_line + 18446744073709551616 - g.display_line_tick) %
    18446744073709551616
  let delta :=
    if g.display_line_end ≤ cur_line then
      (delta +
        ((lines_per_frame + 18446744073709551616 - cur_line) %
          18446744073709551616) * ticks_per_line +
        ((g.display_line_start + 18446744073709551616 - 1) %
          18446744073709551616) * ticks_per_line) % 18446744073709551616
    else if cur_line < g.display_line_start then
      (delta +
        (((g.display_line_start + 18446744073709551616 - 1) %
            18446744073709551616 + 18446744073709551616 - cur_line) %
          18446744073709551616) * ticks_per_line) % 18446744073709551616
    else
      (delta +
        (((g.display_line_end + 18446744073709551616 - 1) %
            18446744073709551616 + 18446744073709551616 - cur_line) %
          18446744073709551616) * ticks_per_line) % 18446744073709551616
  let delta := (delta <<< 16) % 18446744073709551616
  let delta := (delta + 18446744073709551616 - g.gpu_clock_phase) %
    18446744073709551616
  ((delta + ratio + 18446744073709551616 - 1) % 18446744073709551616) / ratio

/-- Result of `Gpu::sync`: the updated state, whether the VBlank
interrupt was asserted during the call, and the delta registered with
the timekeeper by the final `predict_next_sync`. -/
structure SyncResult where
  gpu : Gpu
  vblankAssert : Bool
  nextDelta : Nat
deriving DecidableEq

/-- First half of `Gpu::sync` (source lines 243-286): convert the
elapsed CPU cycles to GPU ticks carrying the Q16.16 phase, and advance
the line tick, line counter and interlace field.  `deltaCpu` is the CPU
cycle count returned by `tk.sync(Peripheral::Gpu)` and `ratio` the
Q16.16 clock ratio.  The `% 2^64` wrap mirrors the `Cycles = u64`
arithmetic of the source. -/
def Gpu.syncLine (g : Gpu) (deltaCpu ratio : Nat) : Gpu :=
  let delta := (g.gpu_clock_phase + deltaCpu * ratio) % 18446744073709551616
  let phase := delta % 65536
  let delta := delta / 65536
  let ticks_per_line := g.vmode_timings.1
  let lines_per_frame := g.vmode_timings.2
  let line_tick := g.display_line_tick + delta
  let line := g.display_line + line_tick / ticks_per_line
  let g1 : Gpu :=
    { g with gpu_clock_phase := phase,
             display_line_tick := line_tick % ticks_per_line }
  if lines_per_frame < line then
    let g1 :=
      if g1.interlaced then
        let nframes := line / lines_per_frame
        { g1 with field :=
            if (nframes + g1.field.toNat) &&& 1 ≠ 0 then VideoField.top
            else VideoField.bottom }
      else g1
    { g1 with display_line := line % lines_per_frame }
  else
    { g1 with display_line := line }

/-- `Gpu::sync`: advance the timing cursor (`syncLine`), handle the
VBlank edges (rising edge asserts the interrupt, falling edge calls
`renderer.display()`), persist the sampled level and register the next
sync deadline. -/
def Gpu.sync (g : Gpu) (deltaCpu ratio : Nat) : SyncResult :=
  let g2 := g.syncLine deltaCpu ratio
  let vblank_now := g2.in_vblank
  let asserted := !g2.vblank_interrupt && vblank_now
  let g3 :=
    if g2.vblank_interrupt && !vblank_now then
      { g2 with renderer := g2.renderer ++ [RendererCall.display] }
    else g2
  let g4 := { g3 with vblank_interrupt := vblank_now }
  ⟨g4, asserted, g4.predict_next_sync ratio⟩

/-- First part of `Gpu::status`: all the unconditional bit fields, up to
and including the DMA direction in bits 29-30 (source lines 428-455). -/
def Gpu.statusBase (g : Gpu) : Nat :=
  g.page_base_x |||
  (g.page_base_y <<< 4) |||
  (g.semi_transparency <<< 5) |||
  (g.texture_depth.toNat <<< 7) |||
  (g.dithering.toNat <<< 9) |||
  (g.draw_to_display.toNat <<< 10) |||
  (g.force_set_mask_bit.toNat <<< 11) |||
  (g.preserve_masked_pixels.toNat <<< 12) |||
  (g.field.toNat <<< 13) |||
  (g.texture_disable.toNat <<< 15) |||
  HorizontalRes.into_status g.hres |||
  (g.vres.toNat <<< 19) |||
  (g.vmode.toNat <<< 20) |||
  (g.display_depth.toNat <<< 21) |||
  (g.interlaced.toNat <<< 22) |||
  (g.display_disabled.toNat <<< 23) |||
  (g.gp0_interrupt.toNat <<< 24) |||
  (1 <<< 26) |||
  (1 <<< 27) |||
  (1 <<< 28) |||
  (g.dma_direction.toNat <<< 29)

/-- `Gpu::status`: bit 31 is the displayed VRAM line parity outside of
vblank, then the DMA request bit 25 is derived from the partial word. -/
def Gpu.status (g : Gpu) : Nat :=
  let r := g.statusBase
  let r :=
    if g.in_vblank then r
    else r ||| ((g.displayed_vram_line &&& 1) <<< 31)
  let dma_request :=
    match g.dma_direction with
    | DmaDirection.off => 0
    | DmaDirection.fifo => 1
    | DmaDirection.cpuToGp0 => (r >>> 28) &&& 1
    | DmaDirection.vramToCpu => (r >>> 27) &&& 1
  r ||| (dma_request <<< 25)

/-- Range constraints imposed by the `u8` types of the corresponding
`Gpu` struct fields in the source. -/
def Gpu.WF (g : Gpu) : Prop :=
  g.page_base_x < 256 ∧ g.page_base_y < 256 ∧
  g.semi_transparency < 256 ∧ g.hres < 256

instance (g : Gpu) : Decidable g.WF := by
  unfold Gpu.WF
  infer_instance

/-- `Gpu::gp0_nop` (GP0 0x00). -/
def Gpu.gp0_nop (g : Gpu) : Option Gpu := some g

/-- `Gpu::gp0_clear_cache` (GP0 0x01, not implemented). -/
def Gpu.gp0_clear_cache (g : Gpu) : Option Gpu := some g

/-- `Gpu::gp0_fill_rect` (GP0 0x02). -/
def Gpu.gp0_fill_rect (g : Gpu) : Option Gpu := do
  let w1 ← g.gp0_command.get 1
  let w2 ← g.gp0_command.get 2
  let w0 ← g.gp0_command.get 0
  let top_left := Position.from_gp0 w1
  let size := Position.from_gp0 w2
  let positions := [
    top_left,
    ⟨top_left.x + size.x, top_left.y⟩,
    ⟨top_left.x, top_left.y + size.y⟩,
    ⟨top_left.x + size.x, top_left.y + size.y⟩]
  let colors := List.replicate 4 (Color.from_gp0 w0)
  some { g with renderer := g.renderer ++ [RendererCall.pushQuad positions colors] }

/-- `Gpu::gp0_triangle_mono_opaque` (GP0 0x20). -/
def Gpu.gp0_triangle_mono_opaque (g : Gpu) : Option Gpu := do
  let w1 ← g.gp0_command.get 1
  let w2 ← g.gp0_command.get 2
  let w3 ← g.gp0_command.get 3
  let w0 ← g.gp0_command.get 0
  let positions := [Position.from_gp0 w1, Position.from_gp0 w2, Position.from_gp0 w3]
  let colors := List.replicate 3 (Color.from_gp0 w0)
  some { g with renderer := g.renderer ++ [RendererCall.pushTriangle positions colors] }

/-- `Gpu::gp0_quad_mono_opaque` (GP0 0x28). -/
def Gpu.gp0_quad_mono_opaque (g : Gpu) : Option Gpu := do
  let w1 ← g.gp0_command.get 1
  let w2 ← g.gp0_command.get 2
  let w3 ← g.gp0_command.get 3
  let w4 ← g.gp0_command.get 4
  let w0 ← g.gp0_command.get 0
  let positions := [Position.from_gp0 w1, Position.from_gp0 w2,
                    Position.from_gp0 w3, Position.from_gp0 w4]
  let colors := List.replicate 4 (Color.from_gp0 w0)
  some { g with renderer := g.renderer ++ [RendererCall.pushQuad positions colors] }

/-- `Gpu::gp0_quad_texture_blend_opaque` (GP0 0x2C/0x2F; textures are
stubbed with a solid colour). -/
def Gpu.gp0_quad_texture_blend_opaque (g : Gpu) : Option Gpu := do
  let w1 ← g.gp0_command.get 1
  let w3 ← g.gp0_command.get 3
  let w5 ← g.gp0_command.get 5
  let w7 ← g.gp0_command.get 7
  let positions := [Position.from_gp0 w1, Position.from_gp0 w3,
                    Position.from_gp0 w5, Position.from_gp0 w7]
  let colors := List.replicate 4 (Color.mk 0x80 0x00 0x00)
  some { g with renderer := g.renderer ++ [RendererCall.pushQuad positions colors] }

/-- `Gpu::gp0_quad_texture_raw_opaque` (GP0 0x2D; same stub). -/
def Gpu.gp0_quad_texture_raw_opaque (g : Gpu) : Option Gpu := do
  let w1 ← g.gp0_command.get 1
  let w3 ← g.gp0_command.get 3
  let w5 ← g.gp0_command.get 5
  let w7 ← g.gp0_command.get 7
  let positions := [Position.from_gp0 w1, Position.from_gp0 w3,
                    Position.from_gp0 w5, Position.from_gp0 w7]
  let colors := List.replicate 4 (Color.mk 0x80 0x00 0x00)
  some { g with renderer := g.renderer ++ [RendererCall.pushQuad positions colors] }

/-- `Gpu::gp0_triangle_shaded_opaque` (GP0 0x30). -/
def Gpu.gp0_triangle_shaded_opaque (g : Gpu) : Option Gpu := do
  let w1 ← g.gp0_command.get 1
  let w3 ← g.gp0_command.get 3
  let w5 ← g.gp0_command.get 5
  let w0 ← g.gp0_command.get 0
  let w2 ← g.gp0_command.get 2
  let w4 ← g.gp0_command.get 4
  let positions := [Position.from_gp0 w1, Position.from_gp0 w3, Position.from_gp0 w5]
  let colors := [Color.from_gp0 w0, Color.from_gp0 w2, Color.from_gp0 w4]
  some { g with renderer := g.renderer ++ [RendererCall.pushTriangle positions colors] }

/-- `Gpu::gp0_quad_shaded_opaque` (GP0 0x38). -/
def Gpu.gp0_quad_shaded_opaque (g : Gpu) : Option Gpu := do
  let w1 ← g.gp0_command.get 1
  let w3 ← g.gp0_command.get 3
  let w5 ← g.gp0_command.get 5
  let w7 ← g.gp0_command.get 7
  let w0 ← g.gp0_command.get 0
  let w2 ← g.gp0_command.get 2
  let w4 ← g.gp0_command.get 4
  let w6 ← g.gp0_command.get 6
  let positions := [Position.from_gp0 w1, Position.from_gp0 w3,
                    Position.from_gp0 w5, Position.from_gp0 w7]
  let colors := [Color.from_gp0 w0, Color.from_gp0 w2,
                 Color.from_gp0 w4, Color.from_gp0 w6]
  some { g with renderer := g.renderer ++ [RendererCall.pushQuad positions colors] }

/-- `Gpu::gp0_rect_opaque` (GP0 0x60). -/
def Gpu.gp0_rect_opaque (g : Gpu) : Option Gpu := do
  let w1 ← g.gp0_command.get 1
  let w2 ← g.gp0_command.get 2
  let w0 ← g.gp0_command.get 0
  let top_left := Position.from_gp0 w1
  let size := Position.from_gp0 w2
  let positions := [
    top_left,
    ⟨top_left.x + size.x, top_left.y⟩,
    ⟨top_left.x, top_left.y + size.y⟩,
    ⟨top_left.x + size.x, top_left.y + size.y⟩]
  let colors := List.replicate 4 (Color.from_gp0 w0)
  some { g with renderer := g.renderer ++ [RendererCall.pushQuad positions colors] }

/-- `Gpu::gp0_rect_texture_blend_opaque` (GP0 0x64; size is word 3, the
texture coordinate word 2 is ignored by the stub). -/
def Gpu.gp0_rect_texture_blend_opaque (g : Gpu) : Option Gpu := do
  let w1 ← g.gp0_command.get 1
  let w3 ← g.gp0_command.get 3
  let w0 ← g.gp0_command.get 0
  let top_left := Position.from_gp0 w1
  let size := Position.from_gp0 w3
  let positions := [
    top_left,
    ⟨top_left.x + size.x, top_left.y⟩,
    ⟨top_left.x, top_left.y + size.y⟩,
    ⟨top_left.x + size.x, top_left.y + size.y⟩]
  let colors := List.replicate 4 (Color.from_gp0 w0)
  some { g with renderer := g.renderer ++ [RendererCall.pushQuad positions colors] }

/-- `Gpu::gp0_rect_texture_raw_opaque` (GP0 0x65; same stub). -/
def Gpu.gp0_rect_texture_raw_opaque (g : Gpu) : Option Gpu := do
  let w1 ← g.gp0_command.get 1
  let w3 ← g.gp0_command.get 3
  let w0 ← g.gp0_command.get 0
  let top_left := Position.from_gp0 w1
  let size := Position.from_gp0 w3
  let positions := [
    top_left,
    ⟨top_left.x + size.x, top_left.y⟩,
    ⟨top_left.x, top_left.y + size.y⟩,
    ⟨top_left.x + size.x, top_left.y + size.y⟩]
  let colors := List.replicate 4 (Color.from_gp0 w0)
  some { g with renderer := g.renderer ++ [RendererCall.pushQuad positions colors] }

/-- `Gpu::gp0_image_load` (GP0 0xA0): word 2 holds the image resolution;
the word count is the pixel count rounded up to a multiple of two
halfwords (`(imgsize + 1) & !1`), divided by two. -/
def Gpu.gp0_image_load (g : Gpu) : Option Gpu := do
  let res ← g.gp0_command.get 2
  let width := res &&& 0xffff
  let height := res >>> 16
  let imgsize := width * height
  let imgsize := (imgsize + 1) &&& 0xfffffffe
  some { g with gp0_words_remaining := imgsize / 2,
                gp0_mode := Gp0Mode.imageLoad }

/-- `Gpu::gp0_image_store` (GP0 0xC0): parameters parsed, content
unimplemented (the source only logs the resolution). -/
def Gpu.gp0_image_store (g : Gpu) : Option Gpu := do
  let _res ← g.gp0_command.get 2
  some g

/-- `Gpu::gp0_draw_mode` (GP0 0xE1); the reserved texture depth value 3
is a panic in the source. -/
def Gpu.gp0_draw_mode (g : Gpu) : Option Gpu := do
  let val ← g.gp0_command.get 0
  let depth ←
    match (val >>> 7) &&& 3 with
    | 0 => some TextureDepth.t4bit
    | 1 => some TextureDepth.t8bit
    | 2 => some TextureDepth.t15bit
    | _ => none
  some { g with
    page_base_x := val &&& 0xf,
    page_base_y := (val >>> 4) &&& 1,
    semi_transparency := (val >>> 5) &&& 3,
    texture_depth := depth,
    dithering := (val >>> 9) &&& 1 != 0,
    draw_to_display := (val >>> 10) &&& 1 != 0,
    texture_disable := (val >>> 11) &&& 1 != 0,
    rectangle_texture_x_flip := (val >>> 12) &&& 1 != 0,
    rectangle_texture_y_flip := (val >>> 13) &&& 1 != 0 }

/-- `Gpu::gp0_texture_window` (GP0 0xE2). -/
def Gpu.gp0_texture_window (g : Gpu) : Option Gpu := do
  let val ← g.gp0_command.get 0
  some { g with
    texture_window_x_mask := val &&& 0x1f,
    texture_window_y_mask := (val >>> 5) &&& 0x1f,
    texture_window_x_offset := (val >>> 10) &&& 0x1f,
    texture_window_y_offset := (val >>> 15) &&& 0x1f }

/-- `Gpu::gp0_drawing_area_top_left` (GP0 0xE3). -/
def Gpu.gp0_drawing_area_top_left (g : Gpu) : Option Gpu := do
  let val ← g.gp0_command.get 0
  some { g with
    drawing_area_top := (val >>> 10) &&& 0x3ff,
    drawing_area_left := val &&& 0x3ff }

/-- `Gpu::gp0_drawing_area_bottom_right` (GP0 0xE4). -/
def Gpu.gp0_drawing_area_bottom_right (g : Gpu) : Option Gpu := do
  let val ← g.gp0_command.get 0
  some { g with
    drawing_area_bottom := (val >>> 10) &&& 0x3ff,
    drawing_area_right := val &&& 0x3ff }

/-- Reinterpretation of a `u16` bit pattern as an `i16` (the
`as i16` cast of the source). -/
def i16OfNat (n : Nat) : Int :=
  if n % 65536 < 32768 then ((n % 65536 : Nat) : Int)
  else ((n % 65536 : Nat) : Int) - 65536

/-- Truncating cast of an `i16`/`i32` value to `u32` (the `as u32` cast
of the source). -/
def u32OfInt (i : Int) : Nat :=
  (i % 4294967296).toNat

/-- `Gpu::gp0_drawing_offset` (GP0 0xE5): both components are forced to
11-bit sign extension by `((x << 5) as i16) >> 5` (an arithmetic shift,
i.e. flooring division by 32). -/
def Gpu.gp0_drawing_offset (g : Gpu) : Option Gpu := do
  let val ← g.gp0_command.get 0
  let x := val &&& 0x7ff
  let y := (val >>> 11) &&& 0x7ff
  let x := Int.fdiv (i16OfNat (x <<< 5)) 32
  let y := Int.fdiv (i16OfNat (y <<< 5)) 32
  some { g with
    drawing_offset := (x, y),
    renderer := g.renderer ++ [RendererCall.setDrawOffset x y] }

/-- `Gpu::gp0_mask_bit_setting` (GP0 0xE6). -/
def Gpu.gp0_mask_bit_setting (g : Gpu) : Option Gpu := do
  let val ← g.gp0_command.get 0
  some { g with
    force_set_mask_bit := val &&& 1 != 0,
    preserve_masked_pixels := val &&& 2 != 0 }

/-- Dispatch of a stored `gp0_command_method` function pointer. -/
def Gpu.runMethod (m : Gp0Method) (g : Gpu) : Option Gpu :=
  match m with
  | Gp0Method.nop => g.gp0_nop
  | Gp0Method.clearCache => g.gp0_clear_cache
  | Gp0Method.fillRect => g.gp0_fill_rect
  | Gp0Method.triangleMonoOpaque => g.gp0_triangle_mono_opaque
  | Gp0Method.quadMonoOpaque => g.gp0_quad_mono_opaque
  | Gp0Method.quadTextureBlendOpaque => g.gp0_quad_texture_blend_opaque
  | Gp0Method.quadTextureRawOpaque => g.gp0_quad_texture_raw_opaque
  | Gp0Method.triangleShadedOpaque => g.gp0_triangle_shaded_opaque
  | Gp0Method.quadShadedOpaque => g.gp0_quad_shaded_opaque
  | Gp0Method.rectOpaque => g.gp0_rect_opaque
  | Gp0Method.rectTextureBlendOpaque => g.gp0_rect_texture_blend_opaque
  | Gp0Method.rectTextureRawOpaque => g.gp0_rect_texture_raw_opaque
  | Gp0Method.imageLoad => g.gp0_image_load
  | Gp0Method.imageStore => g.gp0_image_store
  | Gp0Method.drawMode => g.gp0_draw_mode
  | Gp0Method.textureWindow => g.gp0_texture_window
  | Gp0Method.drawingAreaTopLeft => g.gp0_drawing_area_top_left
  | Gp0Method.drawingAreaBottomRight => g.gp0_drawing_area_bottom_right
  | Gp0Method.drawingOffset => g.gp0_drawing_offset
  | Gp0Method.maskBitSetting => g.gp0_mask_bit_setting

/-- The GP0 opcode dispatch table of `Gpu::gp0`: parameter count
(including the command word) and handler for each supported opcode;
unknown opcodes are a panic in the source. -/
def gp0OpcodeTable (opcode : Nat) : Option (Nat × Gp0Method) :=
  if opcode = 0x00 then some (1, Gp0Method.nop)
  else if opcode = 0x01 then some (1, Gp0Method.clearCache)
  else if opcode = 0x02 then some (3, Gp0Method.fillRect)
  else if opcode = 0x20 then some (4, Gp0Method.triangleMonoOpaque)
  else if opcode = 0x28 then some (5, Gp0Method.quadMonoOpaque)
  else if opcode = 0x2c then some (9, Gp0Method.quadTextureBlendOpaque)
  else if opcode = 0x2f then some (9, Gp0Method.quadTextureBlendOpaque)
  else if opcode = 0x2d then some (9, Gp0Method.quadTextureRawOpaque)
  else if opcode = 0x30 then some (6, Gp0Method.triangleShadedOpaque)
  else if opcode = 0x38 then some (8, Gp0Method.quadShadedOpaque)
  else if opcode = 0x60 then some (3, Gp0Method.rectOpaque)
  else if opcode = 0x64 then some (4, Gp0Method.rectTextureBlendOpaque)
  else if opcode = 0x65 then some (4, Gp0Method.rectTextureRawOpaque)
  else if opcode = 0xa0 then some (3, Gp0Method.imageLoad)
  else if opcode = 0xc0 then some (3, Gp0Method.imageStore)
  else if opcode = 0xe1 then some (1, Gp0Method.drawMode)
  else if opcode = 0xe2 then some (1, Gp0Method.textureWindow)
  else if opcode = 0xe3 then some (1, Gp0Method.drawingAreaTopLeft)
  else if opcode = 0xe4 then some (1, Gp0Method.drawingAreaBottomRight)
  else if opcode = 0xe5 then some (1, Gp0Method.drawingOffset)
  else if opcode = 0xe6 then some (1, Gp0Method.maskBitSetting)
  else none

/-- Common tail of `Gpu::gp0` (everything after the opcode-decoding
`if`): decrement the word counter, then in `Command` mode push the word
and run the stored handler when the packet is complete, and in
`ImageLoad` mode silently consume the word, returning to `Command` mode
when the counter reaches zero.  The returned list records the handler
invocations performed by this write. -/
def Gpu.gp0Consume (g : Gpu) (val : Nat) : Option (Gpu × List Gp0Method) :=
  let g : Gpu := { g with gp0_words_remaining := g.gp0_words_remaining - 1 }
  match g.gp0_mode with
  | Gp0Mode.command =>
    match g.gp0_command.push_word val with
    | none => none
    | some buf =>
      let g : Gpu := { g with gp0_command := buf }
      if g.gp0_words_remaining = 0 then
        match Gpu.runMethod g.gp0_command_method g with
        | none => none
        | some g2 => some (g2, [g.gp0_command_method])
      else
        some (g, [])
  | Gp0Mode.imageLoad =>
    if g.gp0_words_remaining = 0 then
      some ({ g with gp0_mode := Gp0Mode.command }, [])
    else
      some (g, [])

/-- `Gpu::gp0`: when no words remain from a previous command the top
byte of the word is decoded through the opcode table (this happens
regardless of `gp0_mode`, exactly as in the source), then the common
consume step runs. -/
def Gpu.gp0 (g : Gpu) (val : Nat) : Option (Gpu × List Gp0Method) :=
  if g.gp0_words_remaining = 0 then
    match gp0OpcodeTable (val >>> 24) with
    | none => none
    | some (len, m) =>
      Gpu.gp0Consume
        { g with gp0_words_remaining := len,
                 gp0_command_method := m,
                 gp0_command := g.gp0_command.clear } val
  else
    Gpu.gp0Consume g val

/-- Feed a sequence of words to the GP0 register, collecting all handler
invocations in order. -/
def gp0Run : Gpu → List Nat → Option (Gpu × List Gp0Method)
  | g, [] => some (g, [])
  | g, w :: ws =>
    match g.gp0 w with
    | none => none
    | some (g1, l1) =>
      match gp0Run g1 ws with
      | none => none
      | some (g2, l2) => some (g2, l1 ++ l2)

/-- `Gpu::gp1_reset_command_buffer` (GP1 0x01). -/
def Gpu.gp1_reset_command_buffer (g : Gpu) : Gpu :=
  { g with gp0_command := g.gp0_command.clear,
           gp0_words_remaining := 0,
           gp0_mode := Gp0Mode.command }

/-- `Gpu::gp1_acknowledge_irq` (GP1 0x02). -/
def Gpu.gp1_acknowledge_irq (g : Gpu) : Gpu :=
  { g with gp0_interrupt := false }

/-- `Gpu::gp1_display_enable` (GP1 0x03). -/
def Gpu.gp1_display_enable (g : Gpu) (val : Nat) : Gpu :=
  { g with display_disabled := val &&& 1 != 0 }

/-- `Gpu::gp1_dma_direction` (GP1 0x04); `val &&& 3` is at most 3, so
the final catch-all arm is the `3 => VRamToCpu` arm of the source. -/
def Gpu.gp1_dma_direction (g : Gpu) (val : Nat) : Gpu :=
  { g with dma_direction :=
      match val &&& 3 with
      | 0 => DmaDirection.off
      | 1 => DmaDirection.fifo
      | 2 => DmaDirection.cpuToGp0
      | _ => DmaDirection.vramToCpu }

/-- `Gpu::gp1_display_vram_start` (GP1 0x05). -/
def Gpu.gp1_display_vram_start (g : Gpu) (val : Nat) : Gpu :=
  { g with display_vram_x_start := val &&& 0x3fe,
           display_vram_y_start := (val >>> 10) &&& 0x1ff }

/-- `Gpu::gp1_display_horizontal_range` (GP1 0x06). -/
def Gpu.gp1_display_horizontal_range (g : Gpu) (val : Nat) : Gpu :=
  { g with display_horiz_start := val &&& 0xfff,
           display_horiz_end := (val >>> 12) &&& 0xfff }

/-- `Gpu::gp1_display_vertical_range` (GP1 0x07): set the range and
`sync`. -/
def Gpu.gp1_display_vertical_range (g : Gpu) (val deltaCpu ratio : Nat) : Gpu :=
  let g := { g with display_line_start := val &&& 0x3ff,
                    display_line_end := (val >>> 10) &&& 0x3ff }
  (g.sync deltaCpu ratio).gpu

/-- `Gpu::gp1_get_info` (GP1 0x10): stage state information in the
GPUREAD register; unsupported selectors are a panic in the source. -/
def Gpu.gp1_get_info (g : Gpu) (val : Nat) : Option Gpu :=
  match val &&& 0xf with
  | 3 => some { g with read_word := g.drawing_area_left ||| (g.drawing_area_top <<< 10) }
  | 4 => some { g with read_word := g.drawing_area_right ||| (g.drawing_area_bottom <<< 10) }
  | 5 =>
    let x := g.drawing_offset.1
    let y := g.drawing_offset.2
    let x := u32OfInt x &&& 0x7ff
    let y := u32OfInt y &&& 0x7ff
    some { g with read_word := x ||| (y <<< 11) }
  | 7 => some { g with read_word := 2 }
  | _ => none

/-- `Gpu::gp1_reset` (GP1 0x00): restore the boot register state (with
`interlaced := true`), reset the command buffer, acknowledge the
interrupt and `sync`. -/
def Gpu.gp1_reset (g : Gpu) (deltaCpu ratio : Nat) : Gpu :=
  let g : Gpu :=
    { g with
      page_base_x := 0,
      page_base_y := 0,
      semi_transparency := 0,
      texture_depth := TextureDepth.t4bit,
      texture_window_x_mask := 0,
      texture_window_y_mask := 0,
      texture_window_x_offset := 0,
      texture_window_y_offset := 0,
      dithering := false,
      draw_to_display := false,
      texture_disable := false,
      rectangle_texture_x_flip := false,
      rectangle_texture_y_flip := false,
      drawing_area_left := 0,
      drawing_area_top := 0,
      drawing_area_right := 0,
      drawing_area_bottom := 0,
      force_set_mask_bit := false,
      preserve_masked_pixels := false,
      dma_direction := DmaDirection.off,
      display_disabled := true,
      display_vram_x_start := 0,
      display_vram_y_start := 0,
      hres := HorizontalRes.from_fields 0 0,
      vres := VerticalRes.y240lines,
      field := VideoField.top,
      vmode := VMode.ntsc,
      interlaced := true,
      display_horiz_start := 0x200,
      display_horiz_end := 0xc00,
      display_line_start := 0x10,
      display_line_end := 0x100,
      display_depth := DisplayDepth.d15bits,
      display_line := 0,
      display_line_tick := 0 }
  let g : Gpu := { g with renderer := g.renderer ++ [RendererCall.setDrawOffset 0 0] }
  let g := g.gp1_reset_command_buffer
  let g := g.gp1_acknowledge_irq
  (g.sync deltaCpu ratio).gpu

/-- `Gpu::gp1_display_mode` (GP1 0x08); an unsupported reverse flag
(bit 7) is a panic in the source, reached after the field updates but
before the final `sync`. -/
def Gpu.gp1_display_mode (g : Gpu) (val deltaCpu ratio : Nat) : Option Gpu :=
  let hr1 := val &&& 3
  let hr2 := (val >>> 6) &&& 1
  let g : Gpu :=
    { g with
      hres := HorizontalRes.from_fields hr1 hr2,
      vres := if val &&& 0x4 ≠ 0 then VerticalRes.y480lines else VerticalRes.y240lines,
      vmode := if val &&& 0x8 ≠ 0 then VMode.pal else VMode.ntsc,
      display_depth := if val &&& 0x10 ≠ 0 then DisplayDepth.d15bits
                       else DisplayDepth.d24bits,
      interlaced := val &&& 0x20 ≠ 0,
      field := VideoField.top }
  if val &&& 0x80 ≠ 0 then none
  else some (g.sync deltaCpu ratio).gpu

/-- `Gpu::gp1`: control command dispatch on the top byte; unknown
opcodes are a panic.  The handlers that call `sync` receive the
timekeeper delta and clock ratio; the `video_timings_changed`
notification sent to the timer subsystem after GP1 0x00 and 0x08 is
external to the GPU state. -/
def Gpu.gp1 (g : Gpu) (val deltaCpu ratio : Nat) : Option Gpu :=
  match (val >>> 24) &&& 0xff with
  | 0x00 => some (g.gp1_reset deltaCpu ratio)
  | 0x01 => some g.gp1_reset_command_buffer
  | 0x02 => some g.gp1_acknowledge_irq
  | 0x03 => some (g.gp1_display_enable val)
  | 0x04 => some (g.gp1_dma_direction val)
  | 0x05 => some (g.gp1_display_vram_start val)
  | 0x06 => some (g.gp1_display_horizontal_range val)
  | 0x07 => some (g.gp1_display_vertical_range val deltaCpu ratio)
  | 0x10 => g.gp1_get_info val
  | 0x08 => g.gp1_display_mode val deltaCpu ratio
  | _ => none

/-!
## Theorems about the claims
-/

/-- C1 (failing input): from the boot NTSC state (line 0, tick 0,
phase 0), a `sync` over exactly one frame of GPU ticks
(263 × 3412 = 897356 ticks, here with clock ratio 1.0 = 0x10000) leaves
`display_line` equal to `lines_per_frame` (263) itself, because the
frame-wrap test of the source is the strict `line > lines_per_frame`:
the claimed invariant `display_line < lines_per_frame` does not hold. -/
theorem C1_sync_line_reaches_lines_per_frame :
    ((Gpu.new HardwareType.ntsc).sync 897356 65536).gpu.display_line = 263 ∧
    ((Gpu.new HardwareType.ntsc).sync 897356 65536).gpu.vmode_timings.2 = 263 ∧
    ((Gpu.new HardwareType.ntsc).sync 897356 65536).gpu.display_line_tick = 0 := by
  decide

/-- C2 (failing input): executing GP0 opcode 0xA0 with a size word
encoding width × height = 0 leaves `gp0_words_remaining = 0` while
`gp0_mode = ImageLoad`, violating the claimed equivalence
`gp0_words_remaining == 0 ↔ gp0_mode == Command ∧ between commands`. -/
theorem C2_zero_size_image_load_breaks_invariant :
    (gp0Run (Gpu.new HardwareType.ntsc) [0xA0000000, 0, 0]).map
      (fun p => (p.1.gp0_words_remaining, p.1.gp0_mode)) =
    some (0, Gp0Mode.imageLoad) := by
  decide

/-- C5 (counterexample): the boot NTSC status word is 0x1C802000 as the
claim states, but bit 13 (the `field = Top` bit) is also set, refuting
the claim's assertion that no bits other than 23, 26, 27, 28 are set. -/
theorem C5_counterexample_bit13 :
    (Gpu.new HardwareType.ntsc).status = 0x1C802000 ∧
    (Gpu.new HardwareType.ntsc).status.testBit 13 = true := by
  decide

/-- C5 (amended): constructing a `Gpu` with `HardwareType::Ntsc` and
immediately reading the status register returns exactly 0x1C802000, and
the set bits of that 32-bit word are exactly bits 13 (field = Top), 23
(display disabled), 26, 27 and 28 (the hard-wired ready bits); bits
29-30 are zero. -/
theorem C5_boot_status :
    (Gpu.new HardwareType.ntsc).status = 0x1C802000 ∧
    (∀ i < 32, (Gpu.new HardwareType.ntsc).status.testBit i =
      decide (i = 13 ∨ i = 23 ∨ i = 26 ∨ i = 27 ∨ i = 28)) := by
  decide

/-- C7 (counterexample): the fill-rectangle sequence
`[0x02804020, 0x00100020, 0x00400030]` does not produce the quad the
claim describes: since the size word 0x00400030 decodes (per the stated
position decoding) to width 0x30 and height 0x40, the claimed corners
(0x60, 0x10), (0x20, 0x40), (0x60, 0x40) are wrong. -/
theorem C7_counterexample_positions :
    (gp0Run (Gpu.new HardwareType.ntsc) [0x02804020, 0x00100020, 0x00400030]).map
      (fun p => p.1.renderer) ≠
    some [RendererCall.pushQuad
      [⟨0x20, 0x10⟩, ⟨0x60, 0x10⟩, ⟨0x20, 0x40⟩, ⟨0x60, 0x40⟩]
      [⟨0x20, 0x40, 0x80⟩, ⟨0x20, 0x40, 0x80⟩, ⟨0x20, 0x40, 0x80⟩, ⟨0x20, 0x40, 0x80⟩]] := by
  decide

/-- C7 (amended): sending the three GP0 words 0x02804020, 0x00100020,
0x00400030 causes exactly one `renderer.push_quad` call, whose positions
are (0x20, 0x10), (0x50, 0x10), (0x20, 0x50), (0x50, 0x50) — the size
word decodes as width = 0x30 (low 16 bits) and height = 0x40 (high 16
bits) — and whose four colours are all (R = 0x20, G = 0x40, B = 0x80). -/
theorem C7_fill_rect_quad :
    (gp0Run (Gpu.new HardwareType.ntsc) [0x02804020, 0x00100020, 0x00400030]).map
      (fun p => (p.1.renderer, p.2)) =
    some ([RendererCall.pushQuad
      [⟨0x20, 0x10⟩, ⟨0x50, 0x10⟩, ⟨0x20, 0x50⟩, ⟨0x50, 0x50⟩]
      [⟨0x20, 0x40, 0x80⟩, ⟨0x20, 0x40, 0x80⟩, ⟨0x20, 0x40, 0x80⟩, ⟨0x20, 0x40, 0x80⟩]],
      [Gp0Method.fillRect]) := by
  decide

/-- Helper for C4: `in_vblank` only reads the display line and the
vertical display range. -/
theorem in_vblank_congr (g g2 : Gpu)
    (h1 : g2.display_line = g.display_line)
    (h2 : g2.display_line_start = g.display_line_start)
    (h3 : g2.display_line_end = g.display_line_end) :
    g2.in_vblank = g.in_vblank := by
  unfold Gpu.in_vblank
  rw [h1, h2, h3]

/-- Helper for C4: the timing-cursor half of `sync` does not touch the
interrupt level, the renderer, or the vertical display range. -/
theorem syncLine_preserves (g : Gpu) (deltaCpu ratio : Nat) :
    (g.syncLine deltaCpu ratio).vblank_interrupt = g.vblank_interrupt ∧
    (g.syncLine deltaCpu ratio).renderer = g.renderer ∧
    (g.syncLine deltaCpu ratio).display_line_start = g.display_line_start ∧
    (g.syncLine deltaCpu ratio).display_line_end = g.display_line_end := by
  simp only [Gpu.syncLine]
  split_ifs <;> exact ⟨rfl, rfl, rfl, rfl⟩

/-- Helper for C4: the observable fields of a `sync` result, expressed
against the intermediate state produced by `syncLine`. -/
theorem sync_gpu_fields (g : Gpu) (deltaCpu ratio : Nat) :
    (g.sync deltaCpu ratio).gpu.display_line =
      (g.syncLine deltaCpu ratio).display_line ∧
    (g.sync deltaCpu ratio).gpu.display_line_start =
      (g.syncLine deltaCpu ratio).display_line_start ∧
    (g.sync deltaCpu ratio).gpu.display_line_end =
      (g.syncLine deltaCpu ratio).display_line_end ∧
    (g.sync deltaCpu ratio).gpu.vblank_interrupt =
      (g.syncLine deltaCpu ratio).in_vblank ∧
    (g.sync deltaCpu ratio).gpu.renderer =
      (g.syncLine deltaCpu ratio).renderer ++
        (if (g.syncLine deltaCpu ratio).vblank_interrupt &&
            !(g.syncLine deltaCpu ratio).in_vblank
         then [RendererCall.display] else []) ∧
    (g.sync deltaCpu ratio).vblankAssert =
      (!(g.syncLine deltaCpu ratio).vblank_interrupt &&
        (g.syncLine deltaCpu ratio).in_vblank) := by
  simp only [Gpu.sync]
  split_ifs with h <;> simp_all

/-- C4: within a single `sync` call, the VBlank interrupt is asserted
exactly on the rising edge of `in_vblank` (at most once, since the
result is a single flag), `renderer.display()` is called exactly on the
falling edge, and afterwards `vblank_interrupt` equals `in_vblank()`;
in particular, with the boot display range (`display_line_start = 0x10`,
`display_line_end = 0x100`), a sync advancing `display_line` from 0xFF
to 0x100 asserts VBlank exactly once. -/
theorem C4_vblank_edges (g : Gpu) (deltaCpu ratio : Nat) :
    ((g.sync deltaCpu ratio).vblankAssert =
      (!g.vblank_interrupt && (g.sync deltaCpu ratio).gpu.in_vblank)) ∧
    ((g.sync deltaCpu ratio).gpu.renderer =
      g.renderer ++
        (if g.vblank_interrupt && !(g.sync deltaCpu ratio).gpu.in_vblank
         then [RendererCall.display] else [])) ∧
    ((g.sync deltaCpu ratio).gpu.vblank_interrupt =
      (g.sync deltaCpu ratio).gpu.in_vblank) ∧
    (({ Gpu.new HardwareType.ntsc with display_line := 0xFF }.sync
        3412 65536).vblankAssert = true) := by
  obtain ⟨p1, p2, p3, p4⟩ := syncLine_preserves g deltaCpu ratio
  obtain ⟨q1, q2, q3, q4, q5, q6⟩ := sync_gpu_fields g deltaCpu ratio
  have hv : (g.sync deltaCpu ratio).gpu.in_vblank =
      (g.syncLine deltaCpu ratio).in_vblank :=
    in_vblank_congr _ _ q1 q2 q3
  refine ⟨?_, ?_, ?_, by decide⟩
  · rw [q6, hv, p1]
  · rw [q5, hv, p1, p2]
  · rw [q4, hv]

/-- Helper for C8: division with the `(a + r - 1) / r` round-up pattern
never undershoots: the result multiplied back by `r` is at least `a`. -/
theorem div_round_up_mul_ge (a r : Nat) (hr : 0 < r) :
    a ≤ ((a + r - 1) / r) * r := by
  have h1 := Nat.div_add_mod (a + r - 1) r
  have h2 : (a + r - 1) % r < r := Nat.mod_lt _ hr
  rcases Nat.eq_zero_or_pos a with ha | ha
  · simp [ha]
  · rw [Nat.mul_comm]
    generalize hq : r * ((a + r - 1) / r) = t at h1 ⊢
    omega

/-- C8 (counterexample): with `display_line_start = 0` — reached from
boot by the single GP1(0x07) write 0x07000000, which zeroes the vertical
display range and leaves `display_line = 0 ≥ display_line_end = 0`, the
trailing-vblank branch — the source computes
`(display_line_start - 1) * ticks_per_line` in wrapping `u64`
arithmetic, so at clock ratio 1.0 it registers 897356 CPU cycles: one
full NTSC line (3412 ticks) short of the ceiling of the claim's
three-branch formula, 900768.  The original claim, quantified over every
state, fails here. -/
theorem C8_counterexample_zero_line_start :
    ((Gpu.new HardwareType.ntsc).gp1 0x07000000 0 65536).map
      (fun g0 => (g0.predict_next_sync 65536,
        (g0.specTicksToNextEvent <<< 16 - g0.gpu_clock_phase) ⌈/⌉ 65536)) =
      some (897356, 900768) ∧ (897356 : Nat) ≠ 900768 := by
  exact ⟨by decide, by decide⟩

/-- Helper for C8: under no-overflow bounds, the `u64`-wrapped tail of
`predict_next_sync` (shift by 16, subtract the phase, round-up divide)
computes the plain round-up division. -/
theorem wrapped_div_eq (D phase ratio : Nat) (hD : 1 ≤ D)
    (hD2 : D < 268435456) (hphase : phase < 65536) (hr : 0 < ratio)
    (hratio : ratio < 4294967296) :
    ((D % 18446744073709551616 * 2 ^ 16 % 18446744073709551616 +
        18446744073709551616 - phase) % 18446744073709551616 + ratio +
        18446744073709551616 - 1) % 18446744073709551616 / ratio =
      (D * 2 ^ 16 - phase + ratio - 1) / ratio := by
  have h1 : D % 18446744073709551616 = D := Nat.mod_eq_of_lt (by omega)
  rw [h1]
  have h2 : D * 2 ^ 16 % 18446744073709551616 = D * 2 ^ 16 :=
    Nat.mod_eq_of_lt (by omega)
  rw [h2]
  have h3 : (D * 2 ^ 16 + 18446744073709551616 - phase) %
      18446744073709551616 = D * 2 ^ 16 - phase := by omega
  rw [h3]
  have h4 : (D * 2 ^ 16 - phase + ratio + 18446744073709551616 - 1) %
      18446744073709551616 = D * 2 ^ 16 - phase + ratio - 1 := by omega
  rw [h4]

/-- C8 (amended): for every state satisfying the `u16` field bounds,
the sync invariants (`display_line_tick < ticks_per_line`,
`display_line ≤ lines_per_frame`, `gpu_clock_phase < 2^16`), a clock
ratio with `0 < ratio_fp < 2^32` (a Q16.16 ratio of two clock rates),
and `display_line_start ≥ 1` whenever `display_line ≥ display_line_end`
(otherwise the source's u64 computation wraps, see the counterexample),
the CPU-cycle delta registered by `predict_next_sync` equals
`ceil((Δ << 16 − gpu_clock_phase) / ratio)` where `Δ` is the GPU-tick
count of the three-branch formula (`specTicksToNextEvent`);
consequently the registered delta multiplied by the ratio is never
smaller than `Δ << 16 − gpu_clock_phase`: the wakeup is never early. -/
theorem C8_predict_next_sync_ceiling (g : Gpu) (ratio : Nat)
    (hr : 0 < ratio) (hratio : ratio < 4294967296)
    (hphase : g.gpu_clock_phase < 65536)
    (htick : g.display_line_tick < g.vmode_timings.1)
    (hline : g.display_line ≤ g.vmode_timings.2)
    (hstart16 : g.display_line_start < 65536)
    (hend16 : g.display_line_end < 65536)
    (hstart : g.display_line_end ≤ g.display_line →
      1 ≤ g.display_line_start) :
    g.gpu_clock_phase ≤ g.specTicksToNextEvent <<< 16 ∧
    g.predict_next_sync ratio =
      (g.specTicksToNextEvent <<< 16 - g.gpu_clock_phase) ⌈/⌉ ratio ∧
    g.specTicksToNextEvent <<< 16 - g.gpu_clock_phase ≤
      g.predict_next_sync ratio * ratio := by
  have hΔ : 1 ≤ g.specTicksToNextEvent := by
    simp only [Gpu.specTicksToNextEvent]
    rcases hvm : g.vmode <;>
      (simp only [Gpu.vmode_timings, hvm] at htick ⊢
       split_ifs <;> omega)
  have hle : g.gpu_clock_phase ≤ g.specTicksToNextEvent <<< 16 := by
    rw [Nat.shiftLeft_eq]
    omega
  have key : g.predict_next_sync ratio =
      (g.specTicksToNextEvent <<< 16 - g.gpu_clock_phase + ratio - 1) /
        ratio := by
    simp only [Gpu.predict_next_sync, Gpu.specTicksToNextEvent,
      Nat.shiftLeft_eq]
    cases hvm : g.vmode
    case ntsc =>
      simp only [Gpu.vmode_timings, hvm] at htick hline ⊢
      split_ifs with h1 h2
      · have hdls := hstart h1
        have e1 : (3412 + 18446744073709551616 - g.display_line_tick) %
            18446744073709551616 = 3412 - g.display_line_tick := by omega
        have e2 : (263 + 18446744073709551616 - g.display_line) %
            18446744073709551616 = 263 - g.display_line := by omega
        have e3 : (g.display_line_start + 18446744073709551616 - 1) %
            18446744073709551616 = g.display_line_start - 1 := by omega
        rw [e1, e2, e3]
        exact wrapped_div_eq
          (3412 - g.display_line_tick + (263 - g.display_line) * 3412 +
            (g.display_line_start - 1) * 3412)
          g.gpu_clock_phase ratio (by omega) (by omega) hphase hr hratio
      · have e1 : (3412 + 18446744073709551616 - g.display_line_tick) %
            18446744073709551616 = 3412 - g.display_line_tick := by omega
        have e3 : (g.display_line_start + 18446744073709551616 - 1) %
            18446744073709551616 = g.display_line_start - 1 := by omega
        rw [e1, e3]
        have e4 : (g.display_line_start - 1 + 18446744073709551616 -
            g.display_line) % 18446744073709551616 =
            g.display_line_start - 1 - g.display_line := by omega
        rw [e4]
        exact wrapped_div_eq
          (3412 - g.display_line_tick +
            (g.display_line_start - 1 - g.display_line) * 3412)
          g.gpu_clock_phase ratio (by omega) (by omega) hphase hr hratio
      · have e1 : (3412 + 18446744073709551616 - g.display_line_tick) %
            18446744073709551616 = 3412 - g.display_line_tick := by omega
        have e3 : (g.display_line_end + 18446744073709551616 - 1) %
            18446744073709551616 = g.display_line_end - 1 := by omega
        rw [e1, e3]
        have e4 : (g.display_line_end - 1 + 18446744073709551616 -
            g.display_line) % 18446744073709551616 =
            g.display_line_end - 1 - g.display_line := by omega
        rw [e4]
        exact wrapped_div_eq
          (3412 - g.display_line_tick +
            (g.display_line_end - 1 - g.display_line) * 3412)
          g.gpu_clock_phase ratio (by omega) (by omega) hphase hr hratio
    case pal =>
      simp only [Gpu.vmode_timings, hvm] at htick hline ⊢
      split_ifs with h1 h2
      · have hdls := hstart h1
        have e1 : (3404 + 18446744073709551616 - g.display_line_tick) %
            18446744073709551616 = 3404 - g.display_line_tick := by omega
        have e2 : (314 + 18446744073709551616 - g.display_line) %
            18446744073709551616 = 314 - g.display_line := by omega
        have e3 : (g.display_line_start + 18446744073709551616 - 1) %
            18446744073709551616 = g.display_line_start - 1 := by omega
        rw [e1, e2, e3]
        exact wrapped_div_eq
          (3404 - g.display_line_tick + (314 - g.display_line) * 3404 +
            (g.display_line_start - 1) * 3404)
          g.gpu_clock_phase ratio (by omega) (by omega) hphase hr hratio
      · have e1 : (3404 + 18446744073709551616 - g.display_line_tick) %
            18446744073709551616 = 3404 - g.display_line_tick := by omega
        have e3 : (g.display_line_start + 18446744073709551616 - 1) %
            18446744073709551616 = g.display_line_start - 1 := by omega
        rw [e1, e3]
        have e4 : (g.display_line_start - 1 + 18446744073709551616 -
            g.display_line) % 18446744073709551616 =
            g.display_line_start - 1 - g.display_line := by omega
        rw [e4]
        exact wrapped_div_eq
          (3404 - g.display_line_tick +
            (g.display_line_start - 1 - g.display_line) * 3404)
          g.gpu_clock_phase ratio (by omega) (by omega) hphase hr hratio
      · have e1 : (3404 + 18446744073709551616 - g.display_line_tick) %
            18446744073709551616 = 3404 - g.display_line_tick := by omega
        have e3 : (g.display_line_end + 18446744073709551616 - 1) %
            18446744073709551616 = g.display_line_end - 1 := by omega
        rw [e1, e3]
        have e4 : (g.display_line_end - 1 + 18446744073709551616 -
            g.display_line) % 18446744073709551616 =
            g.display_line_end - 1 - g.display_line := by omega
        rw [e4]
        exact wrapped_div_eq
          (3404 - g.display_line_tick +
            (g.display_line_end - 1 - g.display_line) * 3404)
          g.gpu_clock_phase ratio (by omega) (by omega) hphase hr hratio
  refine ⟨hle, ?_, ?_⟩
  · rw [key, Nat.ceilDiv_eq_add_pred_div]
  · rw [key]
    exact div_round_up_mul_ge _ _ hr

/-- C8 witness: the amended theorem instantiated at the boot NTSC state
with clock ratio 1.0 (0x10000). -/
theorem C8_witness :
    (Gpu.new HardwareType.ntsc).predict_next_sync 65536 =
      ((Gpu.new HardwareType.ntsc).specTicksToNextEvent <<< 16 -
        (Gpu.new HardwareType.ntsc).gpu_clock_phase) ⌈/⌉ 65536 :=
  (C8_predict_next_sync_ceiling (Gpu.new HardwareType.ntsc) 65536
    (by decide) (by decide) (by decide) (by decide) (by decide)
    (by decide) (by decide) (by decide)).2.1

/-- Helper for C9: under the `u8` field bounds, every bit field packed
by `statusBase` lies strictly below bit 31. -/
theorem statusBase_lt_two_pow (g : Gpu) (h : g.WF) : g.statusBase < 2 ^ 31 := by
  obtain ⟨h1, h2, h3, h4⟩ := h
  have hb : ∀ b : Bool, b.toNat < 2 := by decide
  have htd : g.texture_depth.toNat < 4 := by cases g.texture_depth <;> decide
  have hfd : g.field.toNat < 2 := by cases g.field <;> decide
  have hvr : g.vres.toNat < 2 := by cases g.vres <;> decide
  have hvm : g.vmode.toNat < 2 := by cases g.vmode <;> decide
  have hdd : g.display_depth.toNat < 2 := by cases g.display_depth <;> decide
  have hdm : g.dma_direction.toNat < 4 := by cases g.dma_direction <;> decide
  have hb9 := hb g.dithering
  have hb10 := hb g.draw_to_display
  have hb11 := hb g.force_set_mask_bit
  have hb12 := hb g.preserve_masked_pixels
  have hb15 := hb g.texture_disable
  have hb22 := hb g.interlaced
  have hb23 := hb g.display_disabled
  have hb24 := hb g.gp0_interrupt
  unfold Gpu.statusBase HorizontalRes.into_status
  simp only [Nat.shiftLeft_eq]
  repeat' apply Nat.or_lt_two_pow
  all_goals omega

/-- C9: for every state satisfying the `u8` field bounds, status bit 31
equals bit 0 of `displayed_vram_line` whenever `in_vblank()` is false,
and equals 0 whenever `in_vblank()` is true; in particular `in_vblank()`
implies status bit 31 is zero. -/
theorem C9_status_bit31 (g : Gpu) (h : g.WF) :
    (g.status.testBit 31 = (!g.in_vblank && g.displayed_vram_line.testBit 0)) ∧
    (g.in_vblank = true → g.status.testBit 31 = false) := by
  have hbase : g.statusBase < 2 ^ 31 := statusBase_lt_two_pow g h
  have hdr : ∀ r : Nat,
      (match g.dma_direction with
       | DmaDirection.off => 0
       | DmaDirection.fifo => 1
       | DmaDirection.cpuToGp0 => (r >>> 28) &&& 1
       | DmaDirection.vramToCpu => (r >>> 27) &&& 1) <<< 25 < 2 ^ 31 := by
    intro r
    have hsel : ∀ d : DmaDirection,
        (match d with
         | DmaDirection.off => 0
         | DmaDirection.fifo => 1
         | DmaDirection.cpuToGp0 => (r >>> 28) &&& 1
         | DmaDirection.vramToCpu => (r >>> 27) &&& 1) ≤ 1 := by
      intro d
      cases d
      · exact Nat.zero_le 1
      · exact Nat.le_refl 1
      · exact Nat.and_le_right
      · exact Nat.and_le_right
    have := hsel g.dma_direction
    rw [Nat.shiftLeft_eq]
    omega
  have main : g.status.testBit 31 =
      (!g.in_vblank && g.displayed_vram_line.testBit 0) := by
    simp only [Gpu.status]
    cases hv : g.in_vblank
    · have hp31 : ((g.displayed_vram_line &&& 1) <<< 31).testBit 31 =
          g.displayed_vram_line.testBit 0 := by
        simp [Nat.testBit_shiftLeft, Nat.testBit_land]
      simp only [hv, Bool.false_eq_true, if_false]
      rw [Nat.testBit_lor, Nat.testBit_lor, hp31,
          Nat.testBit_lt_two_pow hbase, Nat.testBit_lt_two_pow (hdr _)]
      simp
    · simp only [hv, if_true]
      rw [Nat.testBit_lor, Nat.testBit_lt_two_pow hbase,
          Nat.testBit_lt_two_pow (hdr _)]
      simp
  exact ⟨main, fun hv => by rw [main, hv]; simp⟩

/-- C9 witness: the theorem instantiated at the boot NTSC state (which
is in vblank, so bit 31 is zero there). -/
theorem C9_witness :
    (Gpu.new HardwareType.ntsc).status.testBit 31 =
      (!(Gpu.new HardwareType.ntsc).in_vblank &&
        (Gpu.new HardwareType.ntsc).displayed_vram_line.testBit 0) :=
  (C9_status_bit31 (Gpu.new HardwareType.ntsc) (by decide)).1

/-- C6: executing GP0 opcode 0xA0 with size word `w` sets
`gp0_words_remaining` to `((width * height + 1) & !1) / 2` with
`width = w & 0xffff` and `height = w >> 16`, and switches the machine to
`ImageLoad` mode; in particular, after `[0xA0000000, any, 0x00040003]`
(width 3, height 4, 12 pixels, 6 words) the next 6 GP0 words are
consumed in `ImageLoad` mode without invoking any handler, and the 7th
word is decoded as a fresh opcode in `Command` mode (here 0x01, whose
handler runs). -/
theorem C6_image_load_framing :
    (∀ (g : Gpu) (c a w : Nat), g.gp0_words_remaining = 0 →
      g.gp0_mode = Gp0Mode.command → c >>> 24 = 0xa0 → w < 4294967296 →
      (gp0Run g [c, a, w]).map
        (fun p => (p.1.gp0_words_remaining, p.1.gp0_mode, p.2)) =
      some ((((w &&& 0xffff) * (w >>> 16) + 1) &&& 0xfffffffe) / 2,
            Gp0Mode.imageLoad, [Gp0Method.imageLoad])) ∧
    (∀ w1 w2 w3 w4 w5 w6 : Nat,
      (gp0Run (Gpu.new HardwareType.ntsc)
        [0xA0000000, 0, 0x00040003, w1, w2, w3, w4, w5, w6, 0x01000000]).map
        (fun p => (p.1.gp0_words_remaining, p.1.gp0_mode, p.2)) =
      some (0, Gp0Mode.command,
            [Gp0Method.imageLoad, Gp0Method.clearCache])) := by
  have htab : gp0OpcodeTable 0xa0 = some (3, Gp0Method.imageLoad) := by decide
  constructor
  · intro g c a w h0 hm hc _hw
    simp [gp0Run, Gpu.gp0, Gpu.gp0Consume, Gpu.runMethod, Gpu.gp0_image_load,
          CommandBuffer.clear, CommandBuffer.push_word, CommandBuffer.get,
          h0, hm, hc, htab]
  · intro w1 w2 w3 w4 w5 w6
    have m1 : (262147 : Nat) &&& 65535 = 3 := by decide
    have m2 : (13 : Nat) &&& 4294967294 = 12 := by decide
    simp [gp0Run, Gpu.gp0, Gpu.gp0Consume, Gpu.runMethod, Gpu.gp0_image_load,
          Gpu.gp0_clear_cache,
          CommandBuffer.clear, CommandBuffer.push_word, CommandBuffer.get,
          Gpu.new, gp0OpcodeTable, m1, m2]

/-- C6 witness: the general part instantiated at the boot NTSC state
with size word 0x00010003 (3 × 1 = 3 pixels, rounded up to 4 halfwords,
so 2 words of image data follow). -/
theorem C6_witness :
    (gp0Run (Gpu.new HardwareType.ntsc) [0xA0000000, 0, 0x00010003]).map
      (fun p => (p.1.gp0_words_remaining, p.1.gp0_mode, p.2)) =
    some (2, Gp0Mode.imageLoad, [Gp0Method.imageLoad]) := by
  have h := C6_image_load_framing.1 (Gpu.new HardwareType.ntsc)
    0xA0000000 0 0x00010003 rfl rfl (by decide) (by decide)
  rw [h]
  decide

/-- Helper for C10: forcing a value below 2^11 through the
`((x << 5) as i16) >> 5` sign extension of `gp0_drawing_offset` and then
back through the `(x as u32) & 0x7ff` packing of `gp1_get_info` recovers
the original 11-bit value. -/
theorem signExtend_shift_roundtrip (t : Nat) (ht : t < 2048) :
    u32OfInt (Int.fdiv (i16OfNat (t <<< 5)) 32) &&& 0x7ff = t := by
  have hsl : t <<< 5 = 32 * t := by
    rw [Nat.shiftLeft_eq]
    omega
  have hand : ∀ x : Nat, x &&& 2047 = x % 2 ^ 11 := fun x => by
    rw [show (2047 : Nat) = 2 ^ 11 - 1 by norm_num,
        Nat.and_pow_two_sub_one_eq_mod]
  unfold i16OfNat u32OfInt
  have hmod : 32 * t % 65536 = 32 * t := Nat.mod_eq_of_lt (by omega)
  rcases lt_or_ge t 1024 with hlt | hge
  · have hcond : 32 * t % 65536 < 32768 := by omega
    rw [hsl, if_pos hcond, hmod]
    have hfd : ((32 * t : Nat) : Int).fdiv 32 = (t : Int) := by
      push_cast
      rw [Int.mul_fdiv_cancel_left _ (by norm_num)]
    rw [hfd, hand]
    omega
  · have hcond : ¬ 32 * t % 65536 < 32768 := by omega
    rw [hsl, if_neg hcond, hmod]
    have hfd : (((32 * t : Nat) : Int) - 65536).fdiv 32 = (t : Int) - 2048 := by
      have h32 : ((32 * t : Nat) : Int) - 65536 = 32 * ((t : Int) - 2048) := by
        push_cast
        ring
      rw [h32, Int.mul_fdiv_cancel_left _ (by norm_num)]
    rw [hfd, hand]
    omega

/-- C10: writing GP0(0xE5) with command word `v` (top byte 0xE5), then
GP1(0x10) with selector 5, stages `read_word = v & 0x3fffff`: the 11-bit
masks of the sign-extended drawing-offset components, packed back as
`x | (y << 11)`, recover exactly the low 22 bits of the word originally
written. -/
theorem C10_drawing_offset_roundtrip (g : Gpu) (v deltaCpu ratio : Nat)
    (h0 : g.gp0_words_remaining = 0) (hm : g.gp0_mode = Gp0Mode.command)
    (hop : v >>> 24 = 0xe5) :
    ((g.gp0 v).bind (fun p => p.1.gp1 0x10000005 deltaCpu ratio)).map
      (fun g2 => g2.read_word) =
    some (v &&& 0x3fffff) := by
  have htab : gp0OpcodeTable 0xe5 = some (1, Gp0Method.drawingOffset) := by decide
  have e1 : ∀ x : Nat, x &&& 2047 = x % 2 ^ 11 := fun x => by
    have h : (2047 : Nat) = 2 ^ 11 - 1 := by norm_num
    rw [h, Nat.and_pow_two_sub_one_eq_mod]
  have e2 : ∀ x : Nat, x &&& 4194303 = x % 2 ^ 22 := fun x => by
    have h : (4194303 : Nat) = 2 ^ 22 - 1 := by norm_num
    rw [h, Nat.and_pow_two_sub_one_eq_mod]
  have hb1 : v &&& 0x7ff < 2048 := by
    rw [e1]
    omega
  have hb2 : (v >>> 11) &&& 0x7ff < 2048 := by
    rw [e1]
    omega
  have hx := signExtend_shift_roundtrip (v &&& 0x7ff) hb1
  have hy := signExtend_shift_roundtrip ((v >>> 11) &&& 0x7ff) hb2
  simp only [Gpu.gp0, h0, if_pos, Gpu.gp0Consume, hop, htab, hm,
             CommandBuffer.clear, CommandBuffer.push_word, CommandBuffer.get,
             Gpu.runMethod, Gpu.gp0_drawing_offset, Gpu.gp1, Gpu.gp1_get_info]
  simp [hx, hy]
  rw [e1 v, e1 (v >>> 11), e2 v,
      Nat.shiftRight_eq_div_pow, Nat.shiftLeft_eq]
  rw [Nat.lor_comm, Nat.mul_comm]
  rw [← Nat.mul_add_lt_is_or (Nat.mod_lt v (by norm_num)) (v / 2 ^ 11 % 2 ^ 11)]
  rw [show (2 : Nat) ^ 22 = 2 ^ 11 * 2 ^ 11 by norm_num, Nat.mod_mul]
  omega

/-- C10 witness: the theorem instantiated at the boot NTSC state with
command word 0xE5ABCDEF (both offset components negative after 11-bit
sign extension); the low 22 bits 0x2BCDEF are recovered. -/
theorem C10_witness :
    (((Gpu.new HardwareType.ntsc).gp0 0xE5ABCDEF).bind
      (fun p => p.1.gp1 0x10000005 0 0)).map (fun g2 => g2.read_word) =
    some 0x2BCDEF := by
  have h := C10_drawing_offset_roundtrip (Gpu.new HardwareType.ntsc)
    0xE5ABCDEF 0 0 rfl rfl (by decide)
  rw [h]
  decide

/-- Helper for C3: every GP0 handler other than `gp0_image_load` leaves
`gp0_words_remaining` and `gp0_mode` unchanged when it succeeds. -/
theorem runMethod_preserves (m : Gp0Method) (hm : m ≠ Gp0Method.imageLoad)
    (g g' : Gpu) (h : Gpu.runMethod m g = some g') :
    g'.gp0_words_remaining = g.gp0_words_remaining ∧
    g'.gp0_mode = g.gp0_mode := by
  cases m
  case drawMode =>
    simp only [Gpu.runMethod, Gpu.gp0_draw_mode, Option.bind_eq_bind,
      Option.bind_eq_some, Option.some.injEq] at h
    obtain ⟨w0, hw0, h⟩ := h
    split at h <;>
      first
        | (simp only [Option.some_bind, Option.some.injEq] at h
           subst h
           exact ⟨rfl, rfl⟩)
        | simp at h
  all_goals first
    | exact absurd rfl hm
    | (simp only [Gpu.runMethod, Gpu.gp0_nop, Gpu.gp0_clear_cache,
        Gpu.gp0_fill_rect, Gpu.gp0_triangle_mono_opaque,
        Gpu.gp0_quad_mono_opaque, Gpu.gp0_quad_texture_blend_opaque,
        Gpu.gp0_quad_texture_raw_opaque, Gpu.gp0_triangle_shaded_opaque,
        Gpu.gp0_quad_shaded_opaque, Gpu.gp0_rect_opaque,
        Gpu.gp0_rect_texture_blend_opaque, Gpu.gp0_rect_texture_raw_opaque,
        Gpu.gp0_image_store, Gpu.gp0_texture_window,
        Gpu.gp0_drawing_area_top_left, Gpu.gp0_drawing_area_bottom_right,
        Gpu.gp0_drawing_offset, Gpu.gp0_mask_bit_setting,
        Option.bind_eq_bind, Option.bind_eq_some, Option.some.injEq] at h
       repeat obtain ⟨_, _, h⟩ := h
       first
         | (subst h; exact ⟨rfl, rfl⟩)
         | exact ⟨rfl, rfl⟩)

/-- Proof-structuring helper for C3: the state of a `Command`-mode GP0
write after the word counter has been decremented and the word pushed
into the buffer. -/
def Gpu.midState (g : Gpu) (buf : CommandBuffer) : Gpu :=
  { g with gp0_words_remaining := g.gp0_words_remaining - 1,
           gp0_command := buf }

/-- Helper for C3: the shape of the GP0 consume step in `Command` mode,
expressed through `midState`. -/
theorem gp0Consume_command (g : Gpu) (w : Nat)
    (hmode : g.gp0_mode = Gp0Mode.command) :
    Gpu.gp0Consume g w =
      match g.gp0_command.push_word w with
      | none => none
      | some buf =>
        if g.gp0_words_remaining - 1 = 0 then
          match Gpu.runMethod g.gp0_command_method (Gpu.midState g buf) with
          | none => none
          | some g2 => some (g2, [g.gp0_command_method])
        else some (Gpu.midState g buf, []) := by
  unfold Gpu.gp0Consume Gpu.midState
  dsimp only
  rw [hmode]

/-- Helper for C3: feeding exactly the outstanding number of words of an
in-flight `Command`-mode packet pushes them all and runs the stored
handler exactly once, at the last word, from a state whose counter has
reached zero. -/
theorem gp0Run_completes (ws : List Nat) :
    ∀ g : Gpu, g.gp0_mode = Gp0Mode.command →
      g.gp0_words_remaining = ws.length → ws ≠ [] →
      ∀ p, gp0Run g ws = some p →
        p.2 = [g.gp0_command_method] ∧
        ∃ gpre : Gpu, gpre.gp0_command_method = g.gp0_command_method ∧
          gpre.gp0_words_remaining = 0 ∧ gpre.gp0_mode = Gp0Mode.command ∧
          Gpu.runMethod g.gp0_command_method gpre = some p.1 := by
  induction ws with
  | nil =>
    intro g _ _ hne
    exact absurd rfl hne
  | cons w ws ih =>
    intro g hmode hlen _ p hrun
    have hrem : ¬ g.gp0_words_remaining = 0 := by
      simp [hlen]
    have hstep : Gpu.gp0 g w = Gpu.gp0Consume g w := by
      unfold Gpu.gp0
      rw [if_neg hrem]
    simp only [gp0Run, hstep, gp0Consume_command g w hmode] at hrun
    rcases hpush : g.gp0_command.push_word w with _ | buf <;> rw [hpush] at hrun
    · simp at hrun
    · cases ws with
      | nil =>
        have hone : g.gp0_words_remaining - 1 = 0 := by
          simp at hlen
          omega
        dsimp only at hrun
        rw [if_pos hone] at hrun
        rcases hrm : Gpu.runMethod g.gp0_command_method (Gpu.midState g buf)
            with _ | g3 <;> rw [hrm] at hrun
        · simp at hrun
        · simp only [gp0Run, Option.some.injEq, List.append_nil] at hrun
          subst hrun
          refine ⟨rfl, Gpu.midState g buf, rfl, hone, hmode, hrm⟩
      | cons w2 ws2 =>
        have hmore : ¬ g.gp0_words_remaining - 1 = 0 := by
          simp at hlen
          omega
        dsimp only at hrun
        rw [if_neg hmore] at hrun
        dsimp only at hrun
        rcases hrun2 : gp0Run (Gpu.midState g buf) (w2 :: ws2)
            with _ | p2 <;> rw [hrun2] at hrun
        · simp at hrun
        · obtain ⟨g2, l2⟩ := p2
          simp only [Option.some.injEq, List.nil_append] at hrun
          subst hrun
          have hmid := ih (Gpu.midState g buf) hmode
            (by simp [Gpu.midState] at hlen ⊢; omega) (by simp) (g2, l2) hrun2
          obtain ⟨hlog, gpre, hpm, hp0, hpmode, hrm⟩ := hmid
          exact ⟨hlog, gpre, hpm, hp0, hpmode, hrm⟩

/-- C3 (counterexample): opcode 0xA0 is in the GP0 dispatch table with
declared length 3, but feeding it three words leaves the machine with
`gp0_words_remaining = 6` and `gp0_mode = ImageLoad`, not between
commands. -/
theorem C3_counterexample_imageLoad :
    (gp0Run (Gpu.new HardwareType.ntsc) [0xA0000000, 0, 0x00040003]).map
      (fun p => (p.1.gp0_words_remaining, p.1.gp0_mode)) =
      some (6, Gp0Mode.imageLoad) ∧
    (gp0Run (Gpu.new HardwareType.ntsc) [0xA0000000, 0, 0x00040003]).map
      (fun p => (p.1.gp0_words_remaining, p.1.gp0_mode)) ≠
      some (0, Gp0Mode.command) := by
  exact ⟨by decide, by decide⟩

/-- Helper for C3: closes one positive branch of the opcode-table case
analysis. -/
theorem gp0OpcodeTable_case {L len : Nat} {M m : Gp0Method} (opcode : Nat)
    (h : (some (L, M) : Option (Nat × Gp0Method)) = some (len, m))
    (hL : 1 ≤ L) (hM : M = Gp0Method.imageLoad → opcode = 0xa0) :
    1 ≤ len ∧ (m = Gp0Method.imageLoad → opcode = 0xa0) := by
  injection h with hpair
  injection hpair with hl hm2
  subst hl
  subst hm2
  exact ⟨hL, hM⟩

/-- Helper for C3: every entry of the GP0 opcode table has a positive
declared length, and only opcode 0xA0 dispatches to the image-load
handler. -/
theorem gp0OpcodeTable_inv (opcode len : Nat) (m : Gp0Method)
    (htab : gp0OpcodeTable opcode = some (len, m)) :
    1 ≤ len ∧ (m = Gp0Method.imageLoad → opcode = 0xa0) := by
  unfold gp0OpcodeTable at htab
  by_cases h1 : opcode = 0x00
  · rw [if_pos h1] at htab
    exact gp0OpcodeTable_case opcode htab (by decide) (fun hM => Gp0Method.noConfusion hM)
  rw [if_neg h1] at htab
  by_cases h2 : opcode = 0x01
  · rw [if_pos h2] at htab
    exact gp0OpcodeTable_case opcode htab (by decide) (fun hM => Gp0Method.noConfusion hM)
  rw [if_neg h2] at htab
  by_cases h3 : opcode = 0x02
  · rw [if_pos h3] at htab
    exact gp0OpcodeTable_case opcode htab (by decide) (fun hM => Gp0Method.noConfusion hM)
  rw [if_neg h3] at htab
  by_cases h4 : opcode = 0x20
  · rw [if_pos h4] at htab
    exact gp0OpcodeTable_case opcode htab (by decide) (fun hM => Gp0Method.noConfusion hM)
  rw [if_neg h4] at htab
  by_cases h5 : opcode = 0x28
  · rw [if_pos h5] at htab
    exact gp0OpcodeTable_case opcode htab (by decide) (fun hM => Gp0Method.noConfusion hM)
  rw [if_neg h5] at htab
  by_cases h6 : opcode = 0x2c
  · rw [if_pos h6] at htab
    exact gp0OpcodeTable_case opcode htab (by decide) (fun hM => Gp0Method.noConfusion hM)
  rw [if_neg h6] at htab
  by_cases h7 : opcode = 0x2f
  · rw [if_pos h7] at htab
    exact gp0OpcodeTable_case opcode htab (by decide) (fun hM => Gp0Method.noConfusion hM)
  rw [if_neg h7] at htab
  by_cases h8 : opcode = 0x2d
  · rw [if_pos h8] at htab
    exact gp0OpcodeTable_case opcode htab (by decide) (fun hM => Gp0Method.noConfusion hM)
  rw [if_neg h8] at htab
  by_cases h9 : opcode = 0x30
  · rw [if_pos h9] at htab
    exact gp0OpcodeTable_case opcode htab (by decide) (fun hM => Gp0Method.noConfusion hM)
  rw [if_neg h9] at htab
  by_cases h10 : opcode = 0x38
  · rw [if_pos h10] at htab
    exact gp0OpcodeTable_case opcode htab (by decide) (fun hM => Gp0Method.noConfusion hM)
  rw [if_neg h10] at htab
  by_cases h11 : opcode = 0x60
  · rw [if_pos h11] at htab
    exact gp0OpcodeTable_case opcode htab (by decide) (fun hM => Gp0Method.noConfusion hM)
  rw [if_neg h11] at htab
  by_cases h12 : opcode = 0x64
  · rw [if_pos h12] at htab
    exact gp0OpcodeTable_case opcode htab (by decide) (fun hM => Gp0Method.noConfusion hM)
  rw [if_neg h12] at htab
  by_cases h13 : opcode = 0x65
  · rw [if_pos h13] at htab
    exact gp0OpcodeTable_case opcode htab (by decide) (fun hM => Gp0Method.noConfusion hM)
  rw [if_neg h13] at htab
  by_cases h14 : opcode = 0xa0
  · rw [if_pos h14] at htab
    exact gp0OpcodeTable_case opcode htab (by decide) (fun _ => h14)
  rw [if_neg h14] at htab
  by_cases h15 : opcode = 0xc0
  · rw [if_pos h15] at htab
    exact gp0OpcodeTable_case opcode htab (by decide) (fun hM => Gp0Method.noConfusion hM)
  rw [if_neg h15] at htab
  by_cases h16 : opcode = 0xe1
  · rw [if_pos h16] at htab
    exact gp0OpcodeTable_case opcode htab (by decide) (fun hM => Gp0Method.noConfusion hM)
  rw [if_neg h16] at htab
  by_cases h17 : opcode = 0xe2
  · rw [if_pos h17] at htab
    exact gp0OpcodeTable_case opcode htab (by decide) (fun hM => Gp0Method.noConfusion hM)
  rw [if_neg h17] at htab
  by_cases h18 : opcode = 0xe3
  · rw [if_pos h18] at htab
    exact gp0OpcodeTable_case opcode htab (by decide) (fun hM => Gp0Method.noConfusion hM)
  rw [if_neg h18] at htab
  by_cases h19 : opcode = 0xe4
  · rw [if_pos h19] at htab
    exact gp0OpcodeTable_case opcode htab (by decide) (fun hM => Gp0Method.noConfusion hM)
  rw [if_neg h19] at htab
  by_cases h20 : opcode = 0xe5
  · rw [if_pos h20] at htab
    exact gp0OpcodeTable_case opcode htab (by decide) (fun hM => Gp0Method.noConfusion hM)
  rw [if_neg h20] at htab
  by_cases h21 : opcode = 0xe6
  · rw [if_pos h21] at htab
    exact gp0OpcodeTable_case opcode htab (by decide) (fun hM => Gp0Method.noConfusion hM)
  rw [if_neg h21] at htab
  exact Option.noConfusion htab

/-- C3 (amended): for every opcode of the GP0 dispatch table except
0xA0, starting between commands and feeding exactly its declared length
of words (the command word, whose top byte selects the opcode, followed
by arbitrary parameter words), if the run completes without a fatal
error then the opcode's handler was invoked exactly once and the final
state has `gp0_words_remaining = 0` and `gp0_mode = Command`. -/
theorem C3_gp0_packet_framing (opcode len : Nat) (m : Gp0Method)
    (htab : gp0OpcodeTable opcode = some (len, m)) (hop : opcode ≠ 0xa0)
    (c : Nat) (hc : c >>> 24 = opcode)
    (ws : List Nat) (hws : ws.length = len - 1)
    (g : Gpu) (h0 : g.gp0_words_remaining = 0)
    (hmode : g.gp0_mode = Gp0Mode.command) :
    ∀ p, gp0Run g (c :: ws) = some p →
      p.2 = [m] ∧ p.1.gp0_words_remaining = 0 ∧
      p.1.gp0_mode = Gp0Mode.command := by
  have hinv : 1 ≤ len ∧ (m = Gp0Method.imageLoad → opcode = 0xa0) :=
    gp0OpcodeTable_inv opcode len m htab
  have hmne : m ≠ Gp0Method.imageLoad := fun he => hop (hinv.2 he)
  intro p hrun
  have hstep : Gpu.gp0 g c =
      Gpu.gp0Consume
        { g with gp0_words_remaining := len, gp0_command_method := m,
                 gp0_command := g.gp0_command.clear } c := by
    unfold Gpu.gp0
    rw [if_pos h0, hc, htab]
  have hstep2 : Gpu.gp0
      { g with gp0_words_remaining := len, gp0_command_method := m,
               gp0_command := g.gp0_command.clear } c =
      Gpu.gp0Consume
        { g with gp0_words_remaining := len, gp0_command_method := m,
                 gp0_command := g.gp0_command.clear } c := by
    unfold Gpu.gp0
    rw [if_neg]
    simp only []
    omega
  have hrun2 : gp0Run
      { g with gp0_words_remaining := len, gp0_command_method := m,
               gp0_command := g.gp0_command.clear } (c :: ws) = some p := by
    simp only [gp0Run, hstep2]
    simp only [gp0Run, hstep] at hrun
    exact hrun
  have hmid := gp0Run_completes (c :: ws)
    { g with gp0_words_remaining := len, gp0_command_method := m,
             gp0_command := g.gp0_command.clear }
    hmode (by simp [hws]; omega) (by simp) p hrun2
  obtain ⟨hlog, gpre, _, hp0, hpmode, hrm⟩ := hmid
  have hpres := runMethod_preserves m hmne gpre p.1 hrm
  exact ⟨hlog, hpres.1.trans hp0, hpres.2.trans hpmode⟩

/-- C3 witness: the amended theorem instantiated at opcode 0x02 (fill
rectangle, declared length 3) fed with parameter words 5 and 7 from the
boot state. -/
theorem C3_witness :
    (gp0Run (Gpu.new HardwareType.ntsc) [0x02000000, 5, 7]).map
      (fun p => (p.2, p.1.gp0_words_remaining, p.1.gp0_mode)) =
    some ([Gp0Method.fillRect], 0, Gp0Mode.command) := by
  cases hrun : gp0Run (Gpu.new HardwareType.ntsc) [0x02000000, 5, 7] with
  | none =>
    have hsome : (gp0Run (Gpu.new HardwareType.ntsc)
        [0x02000000, 5, 7]).isSome = true := by decide
    rw [hrun] at hsome
    simp at hsome
  | some p =>
    have h := C3_gp0_packet_framing 0x02 3 Gp0Method.fillRect (by decide)
      (by decide) 0x02000000 (by decide) [5, 7] (by decide)
      (Gpu.new HardwareType.ntsc) rfl rfl p hrun
    simp [h.1, h.2.1, h.2.2]

end Rustation
